import Mathlib

/-!
Verification of the data-center intelligence dashboard (`streamlit_app.py`).

The dashboard fetches three tabular datasets (datacenter efficiency, facility
summary, rack performance) from a warehouse, applies user-selected filters
(entity selection, inclusive date range), computes derived metrics
(power-per-rack, efficiency classification, anomaly flags) and group-by
aggregations, and renders charts and tables.

Shallow embedding conventions:
* a pandas DataFrame becomes a `List` of rows (structures with one field per
  column);
* floats become `ℚ` (all thresholds in the program are decimal literals, so
  the comparisons are exact);
* naive timestamps become `Int` (only their total order matters);
* a nullable float column (`pd.NA` entries) becomes `Option ℚ`; pandas
  reductions skip NA entries, modelled by `List.filterMap`;
* `Series.min`/`Series.max` of a possibly-empty column becomes `Option ℚ`
  (`none` when every entry is missing, matching the NaN a pandas reduction
  yields on an empty column);
* `groupby` enumerates one group per distinct key; key order is not relied
  upon by any property below, so keys are taken via `List.dedup`.
-/

namespace DCDash

/-- Rack performance record (`GROUP_5.GOLD.RACK_PERFORMANCE`, one row per rack
per time bucket), columns as selected by the tab-3 query. -/
structure RackRow where
  facility_id : String
  rack_id : String
  time_window : Int
  avg_temp_c : ℚ
  avg_power_kw : ℚ
  efficiency : ℚ
  pue : ℚ
  deriving DecidableEq, Repr

/-- Facility summary record (`GROUP_5.GOLD.FACILITY_SUMMARY` joined to
`DIM_FACILITY`), columns as selected by the tab-2 query. -/
structure FacRow where
  facility_id : String
  time_window : Int
  total_power_kw : ℚ
  avg_temp_c : ℚ
  racks_active : ℚ
  pue : ℚ
  datacenter_id : String
  deriving DecidableEq, Repr

/-- Datacenter efficiency record (`GROUP_5.GOLD.DATACENTER_EFFICIENCY`),
columns used by tab 1. -/
structure DcRow where
  datacenter_id : String
  time_window : Int
  total_power_kw : ℚ
  cooling_kw : ℚ
  pue : ℚ
  efficiency : ℚ
  deriving DecidableEq, Repr

/-- Sum of a column (`Series.sum`). -/
def listSum (xs : List ℚ) : ℚ := xs.foldl (· + ·) 0

/-- Arithmetic mean of a column (`Series.mean`); only ever applied to
nonempty groups below. -/
def listMean (xs : List ℚ) : ℚ := listSum xs / (xs.length : ℚ)

/-- `Series.min`: `none` on an empty column (pandas yields NaN there). -/
def listMin (xs : List ℚ) : Option ℚ :=
  xs.foldl (fun acc x => match acc with
    | none => some x
    | some m => some (min m x)) none

/-- `Series.max`: `none` on an empty column (pandas yields NaN there). -/
def listMax (xs : List ℚ) : Option ℚ :=
  xs.foldl (fun acc x => match acc with
    | none => some x
    | some m => some (max m x)) none

/-- `classify_efficiency` (lines 411-419): four-bucket PUE rating. -/
def classify_efficiency (pue : ℚ) : String :=
  if pue < 13/10 then "Excellent"
  else if pue < 16/10 then "Good"
  else if pue < 2 then "Moderate"
  else "Poor"

/-- Inclusive date-range predicate selection:
`df[df["TIME_WINDOW"].between(start, end)]` (pandas `between` is inclusive on
both bounds). `tw` extracts the `TIME_WINDOW` column of the row type. -/
def dateFilter {α : Type} (tw : α → Int) (s e : Int) (rows : List α) : List α :=
  rows.filter (fun r => decide (s ≤ tw r) && decide (tw r ≤ e))

/-- Tab-1 filter (lines 162-165): datacenter set-membership conjoined with the
inclusive date range. -/
def dcFilter (sel : List String) (s e : Int) (rows : List DcRow) : List DcRow :=
  rows.filter (fun r =>
    sel.contains r.datacenter_id && (decide (s ≤ r.time_window) && decide (r.time_window ≤ e)))

/-- `Series.replace(0, pd.NA)` applied to the rack-count denominator. -/
def replaceZeroWithNA (x : ℚ) : Option ℚ :=
  if x = 0 then none else some x

/-- `TOTAL_POWER_KW / RACKS_ACTIVE.replace(0, pd.NA)` (lines 239 and 275):
dividing by NA propagates NA, so the division is only performed on the
`some` branch. -/
def avgPowerPerRack (total racks : ℚ) : Option ℚ :=
  (replaceZeroWithNA racks).map (fun r => total / r)

/-- Anomaly predicate (line 498): `AVG_TEMP_C > 30 | EFFICIENCY < 0.62`. -/
def isAnomalous (r : RackRow) : Bool :=
  decide (30 < r.avg_temp_c) || decide (r.efficiency < 62/100)

/-- Row selection of the alerts table (lines 497-498). -/
def anomalyAlertRows (rows : List RackRow) : List RackRow :=
  rows.filter isAnomalous

/-- Column projection of the alerts table (line 499): the displayed columns
`FACILITY_ID, RACK_ID, TIME_WINDOW, AVG_TEMP_C, EFFICIENCY, PUE`
(`AVG_POWER_KW` is dropped). -/
structure AlertRow where
  facility_id : String
  rack_id : String
  time_window : Int
  avg_temp_c : ℚ
  efficiency : ℚ
  pue : ℚ
  deriving DecidableEq, Repr

/-- Project a rack record onto the alert-table columns. -/
def toAlertRow (r : RackRow) : AlertRow :=
  { facility_id := r.facility_id, rack_id := r.rack_id, time_window := r.time_window
    avg_temp_c := r.avg_temp_c, efficiency := r.efficiency, pue := r.pue }

/-- The anomaly alerts table (lines 497-499): anomalous rows, projected onto
the displayed columns. -/
def anomalyAlerts (rows : List RackRow) : List AlertRow :=
  (anomalyAlertRows rows).map toAlertRow

/-- Output row of the facility performance summary (lines 228-239): group-by
aggregate over `FACILITY_ID` with the derived `AVG_POWER_PER_RACK` column. -/
structure FacPerfRow where
  facility_id : String
  total_power_kw : ℚ
  avg_temp_c : ℚ
  racks_active : ℚ
  pue : ℚ
  avg_power_per_rack : Option ℚ
  deriving DecidableEq, Repr

/-- The group of rows sharing a facility key. -/
def facilityGroup (k : String) (rows : List FacRow) : List FacRow :=
  rows.filter (fun r => r.facility_id == k)

/-- `df_summary.groupby("FACILITY_ID").agg(sum power, mean temp, mean racks,
mean pue)` followed by the `AVG_POWER_PER_RACK` column (lines 228-239): one
output row per distinct facility key. Key order is immaterial to every
property below. -/
def facility_perf (rows : List FacRow) : List FacPerfRow :=
  ((rows.map (·.facility_id)).dedup).map (fun k =>
    let g := facilityGroup k rows
    let total := listSum (g.map (·.total_power_kw))
    let racks := listMean (g.map (·.racks_active))
    { facility_id := k
      total_power_kw := total
      avg_temp_c := listMean (g.map (·.avg_temp_c))
      racks_active := racks
      pue := listMean (g.map (·.pue))
      avg_power_per_rack := avgPowerPerRack total racks })

/-- Output row of the tab-3 KPI summary (lines 512-521): per-facility means of
temperature, power, efficiency and PUE over the rack dataset. -/
structure KpiRow where
  facility_id : String
  avg_temp : ℚ
  avg_power : ℚ
  avg_eff : ℚ
  avg_pue : ℚ
  deriving DecidableEq, Repr

/-- The group of rack rows sharing a facility key. -/
def rackGroup (k : String) (rows : List RackRow) : List RackRow :=
  rows.filter (fun r => r.facility_id == k)

/-- `df_rack_filtered.groupby("FACILITY_ID").agg(mean, mean, mean, mean)`
(lines 512-521). -/
def kpi_summary (rows : List RackRow) : List KpiRow :=
  ((rows.map (·.facility_id)).dedup).map (fun k =>
    let g := rackGroup k rows
    { facility_id := k
      avg_temp := listMean (g.map (·.avg_temp_c))
      avg_power := listMean (g.map (·.avg_power_kw))
      avg_eff := listMean (g.map (·.efficiency))
      avg_pue := listMean (g.map (·.pue)) })

end DCDash

namespace DCDash

/-- Rack-period record with temperature 35 and efficiency 0.9. -/
def rackHot : RackRow :=
  { facility_id := "F01", rack_id := "R01", time_window := 0
    avg_temp_c := 35, avg_power_kw := 5, efficiency := 9/10, pue := 3/2 }

/-- Rack-period record with temperature 20 and efficiency 0.5. -/
def rackIneff : RackRow :=
  { facility_id := "F01", rack_id := "R02", time_window := 0
    avg_temp_c := 20, avg_power_kw := 5, efficiency := 1/2, pue := 3/2 }

/-- Rack-period record with temperature 20 and efficiency 0.9. -/
def rackOk : RackRow :=
  { facility_id := "F01", rack_id := "R03", time_window := 0
    avg_temp_c := 20, avg_power_kw := 5, efficiency := 9/10, pue := 3/2 }

/-- Two facilities with per-period power readings (10, 20) and (30, 40). -/
def exampleFacRows : List FacRow :=
  [⟨"F01", 0, 10, 20, 5, 3/2, "DC1"⟩, ⟨"F01", 1, 20, 20, 5, 3/2, "DC1"⟩,
   ⟨"F02", 0, 30, 20, 5, 3/2, "DC1"⟩, ⟨"F02", 1, 40, 20, 5, 3/2, "DC1"⟩]

/-- Two facilities with per-rack power readings (10, 20) and (30, 40). -/
def exampleRackRows : List RackRow :=
  [⟨"F01", "R01", 0, 20, 10, 9/10, 3/2⟩, ⟨"F01", "R02", 0, 20, 20, 9/10, 3/2⟩,
   ⟨"F02", "R03", 0, 20, 30, 9/10, 3/2⟩, ⟨"F02", "R04", 0, 20, 40, 9/10, 3/2⟩]

/-- Facility row extended with the derived `AVG_POWER_PER_RACK` column
(line 275). -/
structure FacRowD extends FacRow where
  avg_power_per_rack : Option ℚ
  deriving DecidableEq, Repr

/-- Line 275: add the `AVG_POWER_PER_RACK` column to the detail table. -/
def addPowerPerRack (rows : List FacRow) : List FacRowD :=
  rows.map (fun r =>
    { toFacRow := r, avg_power_per_rack := avgPowerPerRack r.total_power_kw r.racks_active })

/-- Row of `pue_summary` (lines 371-375): per-facility mean PUE. -/
structure PueRow where
  facility_id : String
  avg_pue : ℚ
  deriving DecidableEq, Repr

/-- `pue_summary` row with the `Efficiency Rating` column (line 421). -/
structure PueRatedRow extends PueRow where
  rating : String
  deriving DecidableEq, Repr

/-- Lines 371-375: per-facility mean PUE, sorted ascending by mean PUE. -/
def pue_summary (rows : List FacRow) : List PueRow :=
  List.insertionSort (fun a b => a.avg_pue ≤ b.avg_pue)
    (((rows.map (·.facility_id)).dedup).map (fun k =>
      { facility_id := k, avg_pue := listMean ((facilityGroup k rows).map (·.pue)) }))

/-- Line 421: attach the `classify_efficiency` rating to each summary row. -/
def pue_rated (rows : List FacRow) : List PueRatedRow :=
  (pue_summary rows).map (fun p =>
    { toPueRow := p, rating := classify_efficiency p.avg_pue })

/-- Tab-2 entity filter selection (lines 198-204): radio choice between a
single datacenter and a facility multiselect. -/
inductive FacilitySel where
  | byDatacenter (dc : String)
  | byFacility (sel : List String)
  deriving DecidableEq, Repr

/-- Lines 199-204: apply the selected entity filter to the facility table. -/
def entityFilterFac : FacilitySel → List FacRow → List FacRow
  | .byDatacenter dc, rows => rows.filter (fun r => r.datacenter_id == dc)
  | .byFacility sel, rows => rows.filter (fun r => sel.contains r.facility_id)

/-- `df_fac` after the entity filter and the date filter (lines 199-213). -/
def tab2Filtered (sel : FacilitySel) (s e : Int) (rows : List FacRow) : List FacRow :=
  dateFilter FacRow.time_window s e (entityFilterFac sel rows)

/-- `df_summary` (lines 222-225): a copy of the filtered `df_fac` with the
date-range filter applied a second time. -/
def df_summary (sel : FacilitySel) (s e : Int) (rows : List FacRow) : List FacRow :=
  dateFilter FacRow.time_window s e (tab2Filtered sel s e rows)

/-- The displayed Facility Performance Summary table (lines 222-239). -/
def facilitySummaryTable (sel : FacilitySel) (s e : Int) (rows : List FacRow) :
    List FacPerfRow :=
  facility_perf (df_summary sel s e rows)

/-- The output tables of the tab-2 filter/derive/aggregate pipeline. -/
structure Tab2Outputs where
  summaryTable : List FacPerfRow
  detailRows : List FacRowD
  pueTable : List PueRatedRow
  deriving DecidableEq, Repr

/-- One top-to-bottom evaluation of the tab-2 pipeline for a fixed dataset
and fixed widget selections. -/
def tab2Pipeline (sel : FacilitySel) (s e : Int) (rows : List FacRow) : Tab2Outputs :=
  let df_fac := tab2Filtered sel s e rows
  { summaryTable := facilitySummaryTable sel s e rows
    detailRows := addPowerPerRack df_fac
    pueTable := pue_rated df_fac }

/-- Two successive renders of the tab-2 pipeline on unchanged inputs (every
widget interaction re-runs the script top to bottom). -/
def tab2PipelineTwice (sel : FacilitySel) (s e : Int) (rows : List FacRow) :
    Tab2Outputs × Tab2Outputs :=
  (tab2Pipeline sel s e rows, tab2Pipeline sel s e rows)

/-- `alerts.sort_values("TIME_WINDOW", ascending=False)` (line 502). -/
def sortByTimeDesc (alerts : List AlertRow) : List AlertRow :=
  List.insertionSort (fun a b => b.time_window ≤ a.time_window) alerts

/-- What the anomaly section of tab 3 renders. -/
inductive AnomalySection where
  | table (rows : List AlertRow)
  | infoMessage (msg : String)
  deriving DecidableEq, Repr

/-- Lines 501-504: show the alerts table (sorted by time descending) when any
alert exists, else the informational empty-state message. -/
def renderAnomalySection (alerts : List AlertRow) : AnomalySection :=
  if 0 < alerts.length then .table (sortByTimeDesc alerts)
  else .infoMessage "No anomalies detected for the selected date range."

/-- Line 536: the facility multiselect applied to the date-filtered rack
table. -/
def facilityMultiselectFilter (sel : List String) (rows : List RackRow) : List RackRow :=
  rows.filter (fun r => sel.contains r.facility_id)

/-- The tab-3 outputs that the claims compare across selections. -/
structure Tab3Outputs where
  alertsTable : List AlertRow
  kpiTable : List KpiRow
  facFilteredRows : List RackRow
  deriving DecidableEq, Repr

/-- One top-to-bottom evaluation of tab 3 (lines 489-536): the date filter is
applied first; the alerts table and the KPI summary are computed from the
date-filtered table; the facility multiselect is applied only afterwards, to
the rows feeding the remaining charts. -/
def tab3Render (s e : Int) (facSel : List String) (rows : List RackRow) : Tab3Outputs :=
  let df_rack_filtered := dateFilter RackRow.time_window s e rows
  { alertsTable := anomalyAlerts df_rack_filtered
    kpiTable := kpi_summary df_rack_filtered
    facFilteredRows := facilityMultiselectFilter facSel df_rack_filtered }

/-- Tab-2 power-per-rack axis domain (lines 301-302):
`[min * 0.9, max * 1.05]` over the nullable `AVG_POWER_PER_RACK` column
(pandas reductions skip NA entries); `none` when the column reduction has no
value, i.e. the unguarded empty-column case. -/
def tab2PowerDomain (df : List FacRowD) : Option (ℚ × ℚ) :=
  match listMin (df.filterMap FacRowD.avg_power_per_rack),
        listMax (df.filterMap FacRowD.avg_power_per_rack) with
  | some lo, some hi => some (lo * (9/10), hi * (21/20))
  | _, _ => none

/-- Tab-2 temperature axis domain (lines 327-328): `[min - 1, max + 1]`,
likewise unguarded on an empty column. -/
def tab2TempDomain (df : List FacRowD) : Option (ℚ × ℚ) :=
  match listMin (df.map (·.avg_temp_c)), listMax (df.map (·.avg_temp_c)) with
  | some lo, some hi => some (lo - 1, hi + 1)
  | _, _ => none

/-- Line 545: `float(df["AVG_TEMP_C"].min()) if len(df_fac_filtered) else 0.0`. -/
def temp_min (df : List RackRow) : ℚ :=
  if df.length ≠ 0 then (listMin (df.map (·.avg_temp_c))).getD 0 else 0

/-- Line 546: `float(df["AVG_TEMP_C"].max()) if len(df_fac_filtered) else 1.0`. -/
def temp_max (df : List RackRow) : ℚ :=
  if df.length ≠ 0 then (listMax (df.map (·.avg_temp_c))).getD 0 else 1

/-- Line 589: `float(df["EFFICIENCY"].min()) if len(df_fac_filtered) else 0.0`. -/
def eff_min (df : List RackRow) : ℚ :=
  if df.length ≠ 0 then (listMin (df.map (·.efficiency))).getD 0 else 0

/-- Line 590: `float(df["EFFICIENCY"].max()) if len(df_fac_filtered) else 1.0`. -/
def eff_max (df : List RackRow) : ℚ :=
  if df.length ≠ 0 then (listMax (df.map (·.efficiency))).getD 0 else 1

/-- Tab-3 temperature-trend axis domain (line 560): `[temp_min - 1, temp_max + 1]`;
total, because `temp_min`/`temp_max` guard the empty case. -/
def tab3TempDomain (df : List RackRow) : ℚ × ℚ :=
  (temp_min df - 1, temp_max df + 1)

/-- Tab-3 efficiency-trend axis domain (line 604):
`[eff_min - 0.05, eff_max + 0.05]`; total for the same reason. -/
def tab3EffDomain (df : List RackRow) : ℚ × ℚ :=
  (eff_min df - 1/20, eff_max df + 1/20)

/-- Mapping a constructor and then a projection that recovers the key is the
identity on key lists. -/
theorem map_proj_mk {β : Type} (f : String → β) (g : β → String)
    (h : ∀ k, g (f k) = k) :
    ∀ l : List String, (l.map f).map g = l := by
  intro l
  induction l with
  | nil => rfl
  | cons a t ih => simp [h, ih]

/-- The keys of the facility performance summary are the distinct facility
keys of the input. -/
theorem facility_perf_keys (rows : List FacRow) :
    (facility_perf rows).map FacPerfRow.facility_id
      = (rows.map FacRow.facility_id).dedup :=
  map_proj_mk _ _ (fun _ => rfl) _

/-- The keys of the tab-3 KPI summary are the distinct facility keys of the
input. -/
theorem kpi_summary_keys (rows : List RackRow) :
    (kpi_summary rows).map KpiRow.facility_id
      = (rows.map RackRow.facility_id).dedup :=
  map_proj_mk _ _ (fun _ => rfl) _

end DCDash

namespace DCDash

/-- Claim C1: `classify_efficiency` is a pure total function of one PUE value
with half-open buckets `< 1.3 → Excellent`, `[1.3, 1.6) → Good`,
`[1.6, 2.0) → Moderate`, `≥ 2.0 → Poor`, and takes the stated values at the
boundary inputs 1.2999, 1.3, 1.5999, 1.6, 1.9999, 2.0. -/
theorem classify_efficiency_buckets (pue : ℚ) :
    (pue < 13/10 → classify_efficiency pue = "Excellent")
    ∧ (13/10 ≤ pue → pue < 16/10 → classify_efficiency pue = "Good")
    ∧ (16/10 ≤ pue → pue < 2 → classify_efficiency pue = "Moderate")
    ∧ (2 ≤ pue → classify_efficiency pue = "Poor")
    ∧ classify_efficiency (12999/10000) = "Excellent"
    ∧ classify_efficiency (13/10) = "Good"
    ∧ classify_efficiency (15999/10000) = "Good"
    ∧ classify_efficiency (16/10) = "Moderate"
    ∧ classify_efficiency (19999/10000) = "Moderate"
    ∧ classify_efficiency 2 = "Poor" := by
  refine ⟨?_, ?_, ?_, ?_, by norm_num [classify_efficiency], by norm_num [classify_efficiency],
    by norm_num [classify_efficiency], by norm_num [classify_efficiency],
    by norm_num [classify_efficiency], by norm_num [classify_efficiency]⟩
  · intro h
    simp [classify_efficiency, h]
  · intro h1 h2
    simp [classify_efficiency, not_lt.mpr h1, h2]
  · intro h1 h2
    have h3 : ¬ pue < 13/10 := not_lt.mpr (le_trans (by norm_num) h1)
    simp [classify_efficiency, h3, not_lt.mpr h1, h2]
  · intro h
    have h1 : ¬ pue < 13/10 := not_lt.mpr (le_trans (by norm_num) h)
    have h2 : ¬ pue < 16/10 := not_lt.mpr (le_trans (by norm_num) h)
    simp [classify_efficiency, h1, h2, not_lt.mpr h]

/-- Witness for C1: the bucket implications discharged at the concrete
input 1. -/
theorem classify_efficiency_buckets_witness : classify_efficiency 1 = "Excellent" :=
  (classify_efficiency_buckets 1).1 (by norm_num)

/-- Claim C2: a record of the (date-filtered) rack dataset is selected into
the anomaly alerts table iff `avg_temp_c > 30 OR efficiency < 0.62`
(disjunction with fixed thresholds); the displayed table is exactly that row
selection projected onto the displayed columns; and on the three concrete
records, temp=35/eff=0.9 is flagged, temp=20/eff=0.5 is flagged, and
temp=20/eff=0.9 is not. -/
theorem anomaly_alerts_disjunction (rows : List RackRow) (r : RackRow) :
    (r ∈ anomalyAlertRows rows ↔ r ∈ rows ∧ (30 < r.avg_temp_c ∨ r.efficiency < 62/100))
    ∧ anomalyAlerts rows = (anomalyAlertRows rows).map toAlertRow
    ∧ anomalyAlertRows [rackHot] = [rackHot]
    ∧ anomalyAlertRows [rackIneff] = [rackIneff]
    ∧ anomalyAlertRows [rackOk] = [] := by
  refine ⟨?_, rfl, ?_, ?_, ?_⟩
  · simp [anomalyAlertRows, List.mem_filter, isAnomalous]
  · have h : isAnomalous rackHot = true := by
      simp only [isAnomalous, rackHot, Bool.or_eq_true, decide_eq_true_eq]
      left; norm_num
    simp [anomalyAlertRows, List.filter_cons, h]
  · have h : isAnomalous rackIneff = true := by
      simp only [isAnomalous, rackIneff, Bool.or_eq_true, decide_eq_true_eq]
      right; norm_num
    simp [anomalyAlertRows, List.filter_cons, h]
  · have h : isAnomalous rackOk = false := by
      simp only [isAnomalous, rackOk, Bool.or_eq_false_iff, decide_eq_false_iff_not]
      constructor <;> norm_num
    simp [anomalyAlertRows, List.filter_cons, h]

/-- Claim C3: the derived average-power-per-rack metric equals
`total_power_kw / racks_active` whenever the rack count is nonzero, and a
zero rack count yields the missing value `none` (never zero, an infinity, or
a division-by-zero evaluation: the denominator is replaced by NA first, so
the division is only performed on the non-null branch); concretely
`100 / 5 = 20`. -/
theorem avg_power_per_rack_null_guard (total racks : ℚ) :
    (racks ≠ 0 → avgPowerPerRack total racks = some (total / racks))
    ∧ (racks = 0 → avgPowerPerRack total racks = none)
    ∧ avgPowerPerRack 100 5 = some 20 := by
  refine ⟨?_, ?_, ?_⟩
  · intro h
    simp [avgPowerPerRack, replaceZeroWithNA, h]
  · intro h
    simp [avgPowerPerRack, replaceZeroWithNA, h]
  · norm_num [avgPowerPerRack, replaceZeroWithNA]

/-- Witness for C3: the two guard implications discharged at the concrete
inputs (100, 5) and (7, 0). -/
theorem avg_power_per_rack_null_guard_witness :
    avgPowerPerRack 100 5 = some 20 ∧ avgPowerPerRack 7 0 = none := by
  constructor
  · rw [(avg_power_per_rack_null_guard 100 5).1 (by norm_num)]
    norm_num
  · exact (avg_power_per_rack_null_guard 7 0).2.1 rfl

/-- Claim C4: the date-range filter (pandas `between`, applied post-fetch with
user-chosen start/end) retains exactly the rows whose `TIME_WINDOW` lies in
the closed interval `[s, e]`: records exactly at either bound are retained
and records strictly outside are removed; the tab-1 variant conjoined with
datacenter set-membership behaves the same on its date bounds. -/
theorem date_filter_inclusive {α : Type} (tw : α → Int) (s e : Int) (rows : List α) (r : α)
    (sel : List String) (dcRows : List DcRow) (d : DcRow) :
    (r ∈ dateFilter tw s e rows ↔ r ∈ rows ∧ s ≤ tw r ∧ tw r ≤ e)
    ∧ (r ∈ rows → tw r = s → s ≤ e → r ∈ dateFilter tw s e rows)
    ∧ (r ∈ rows → tw r = e → s ≤ e → r ∈ dateFilter tw s e rows)
    ∧ (r ∈ rows → (tw r < s ∨ e < tw r) → r ∉ dateFilter tw s e rows)
    ∧ (d ∈ dcFilter sel s e dcRows ↔
        d ∈ dcRows ∧ sel.contains d.datacenter_id = true
          ∧ s ≤ d.time_window ∧ d.time_window ≤ e) := by
  have hmem : ∀ x : α, x ∈ dateFilter tw s e rows ↔ x ∈ rows ∧ s ≤ tw x ∧ tw x ≤ e := by
    intro x
    simp [dateFilter, List.mem_filter]
  refine ⟨hmem r, ?_, ?_, ?_, ?_⟩
  · intro h1 h2 h3
    exact (hmem r).mpr ⟨h1, le_of_eq h2.symm, h2 ▸ h3⟩
  · intro h1 h2 h3
    exact (hmem r).mpr ⟨h1, h2 ▸ h3, le_of_eq h2⟩
  · intro h1 h2 hc
    rcases (hmem r).mp hc with ⟨-, hs, he⟩
    rcases h2 with h | h
    · exact absurd hs (not_le.mpr h)
    · exact absurd he (not_le.mpr h)
  · simp [dcFilter, List.mem_filter, and_assoc]

/-- Witness for C4: the boundary implications discharged at a concrete record
sitting exactly at the start bound of the range `[0, 5]`. -/
theorem date_filter_inclusive_witness :
    rackOk ∈ dateFilter RackRow.time_window 0 5 [rackOk] :=
  (date_filter_inclusive RackRow.time_window 0 5 [rackOk] rackOk [] []
      ⟨"DC1", 0, 1, 1, 1, 1⟩).2.1
    (List.mem_singleton.mpr rfl) rfl (by norm_num)

/-- Claim C5: the facility performance aggregation is a group-by-key
aggregation with exactly one output row per distinct facility key (the output
keys are nodup and are exactly the keys occurring in the input); on each
output row, total power is the sum over the group and temperature,
racks-active and PUE are arithmetic means over the group; and on the
two-facility example with power rows (10, 20) and (30, 40), the per-facility
sums are 30 and 70 (with the corresponding aggregate means), while the
analogous per-facility mean aggregation (tab-3 KPI summary) yields means 15
and 35. -/
theorem facility_perf_groupby (rows : List FacRow) :
    ((facility_perf rows).map FacPerfRow.facility_id).Nodup
    ∧ (∀ k, k ∈ (facility_perf rows).map FacPerfRow.facility_id
          ↔ ∃ r ∈ rows, r.facility_id = k)
    ∧ (∀ p ∈ facility_perf rows,
        p.total_power_kw = listSum ((facilityGroup p.facility_id rows).map FacRow.total_power_kw)
        ∧ p.avg_temp_c = listMean ((facilityGroup p.facility_id rows).map FacRow.avg_temp_c)
        ∧ p.racks_active = listMean ((facilityGroup p.facility_id rows).map FacRow.racks_active)
        ∧ p.pue = listMean ((facilityGroup p.facility_id rows).map FacRow.pue))
    ∧ facility_perf exampleFacRows
        = [⟨"F01", 30, 20, 5, 3/2, some 6⟩, ⟨"F02", 70, 20, 5, 3/2, some 14⟩]
    ∧ kpi_summary exampleRackRows
        = [⟨"F01", 20, 15, 9/10, 3/2⟩, ⟨"F02", 20, 35, 9/10, 3/2⟩] := by
  refine ⟨?_, ?_, ?_, ?_, ?_⟩
  · rw [facility_perf_keys]
    exact List.nodup_dedup _
  · intro k
    rw [facility_perf_keys]
    simp [List.mem_dedup]
  · intro p hp
    simp only [facility_perf, List.mem_map] at hp
    obtain ⟨k, -, rfl⟩ := hp
    exact ⟨rfl, rfl, rfl, rfl⟩
  · simp +decide [facility_perf, exampleFacRows, facilityGroup, listSum, listMean,
      avgPowerPerRack, replaceZeroWithNA, List.dedup, List.pwFilter, List.filter]
    norm_num
  · simp +decide [kpi_summary, exampleRackRows, rackGroup, listSum, listMean,
      List.dedup, List.pwFilter, List.filter]
    norm_num

/-- Witness for C5: the per-row aggregate equations discharged at the concrete
two-facility dataset, on its first output row. -/
theorem facility_perf_groupby_witness :
    (⟨"F01", 30, 20, 5, 3/2, some 6⟩ : FacPerfRow).total_power_kw
      = listSum ((facilityGroup "F01" exampleFacRows).map FacRow.total_power_kw) := by
  have T := facility_perf_groupby exampleFacRows
  have hmem : (⟨"F01", 30, 20, 5, 3/2, some 6⟩ : FacPerfRow) ∈ facility_perf exampleFacRows := by
    rw [T.2.2.2.1]
    exact List.mem_cons_self _ _
  exact (T.2.2.1 _ hmem).1

/-- Counterexample to claim C6: the claim asserts that the tab-3 rack-trend
axis computations take min/max over an empty column without any guard, but on
the empty selection the unguarded empty-column reductions are undefined
(`none`) while the tab-3 computations return the guarded default bounds, so
the empty-input case does not reach an unguarded min/max there. -/
theorem tab3_domains_guarded_on_empty :
    listMin ([] : List ℚ) = none
    ∧ listMax ([] : List ℚ) = none
    ∧ tab3TempDomain ([] : List RackRow) = (-1, 2)
    ∧ tab3EffDomain ([] : List RackRow) = (-1/20, 21/20) := by
  refine ⟨rfl, rfl, ?_, ?_⟩
  · norm_num [tab3TempDomain, temp_min, temp_max, listMin, listMax]
  · norm_num [tab3EffDomain, eff_min, eff_max, listMin, listMax]

/-- Claim C6 (amended): when a filter selection yields zero rows, the tab-2
power-per-rack and temperature axis domains take min/max over the empty
column without a guard and are undefined, while the tab-3 temperature and
efficiency trend computations guard the empty case and fall back to the
default bounds 0.0 / 1.0 (giving domains `[-1, 2]` and `[-0.05, 1.05]`). -/
theorem chart_domains_on_empty (df2 : List FacRowD) (df3 : List RackRow) :
    (df2 = [] → tab2PowerDomain df2 = none ∧ tab2TempDomain df2 = none)
    ∧ (df3 = [] → tab3TempDomain df3 = (-1, 2) ∧ tab3EffDomain df3 = (-1/20, 21/20)) := by
  constructor
  · rintro rfl
    exact ⟨rfl, rfl⟩
  · rintro rfl
    constructor
    · norm_num [tab3TempDomain, temp_min, temp_max, listMin, listMax]
    · norm_num [tab3EffDomain, eff_min, eff_max, listMin, listMax]

/-- Witness for C6 (amended): discharged at the empty datasets. -/
theorem chart_domains_on_empty_witness :
    tab2PowerDomain ([] : List FacRowD) = none
    ∧ tab3TempDomain ([] : List RackRow) = (-1, 2) :=
  ⟨((chart_domains_on_empty [] []).1 rfl).1, ((chart_domains_on_empty [] []).2 rfl).1⟩

/-- Claim C7: for every date-range selection, if the filtered rack dataset
yields no anomalous rows the anomaly section degrades (without crashing: the
render function is total) to the informational empty-state message, and when
at least one anomalous row exists the alerts table is shown instead. -/
theorem anomaly_empty_state (rows : List RackRow) (s e : Int) :
    (anomalyAlerts (dateFilter RackRow.time_window s e rows) = [] →
      renderAnomalySection (anomalyAlerts (dateFilter RackRow.time_window s e rows))
        = .infoMessage "No anomalies detected for the selected date range.")
    ∧ (anomalyAlerts (dateFilter RackRow.time_window s e rows) ≠ [] →
      renderAnomalySection (anomalyAlerts (dateFilter RackRow.time_window s e rows))
        = .table (sortByTimeDesc (anomalyAlerts (dateFilter RackRow.time_window s e rows)))) := by
  constructor
  · intro h
    rw [h]
    rfl
  · intro h
    have hlen : 0 < (anomalyAlerts (dateFilter RackRow.time_window s e rows)).length :=
      List.length_pos.mpr h
    simp [renderAnomalySection, hlen]

/-- Witness for C7: at the concrete dataset holding one non-anomalous record
and the date range `[0, 0]`, the section renders the message. -/
theorem anomaly_empty_state_witness :
    renderAnomalySection (anomalyAlerts (dateFilter RackRow.time_window 0 0 [rackOk]))
      = .infoMessage "No anomalies detected for the selected date range." := by
  apply (anomaly_empty_state [rackOk] 0 0).1
  have h : isAnomalous rackOk = false := by
    simp only [isAnomalous, rackOk, Bool.or_eq_false_iff, decide_eq_false_iff_not]
    constructor <;> norm_num
  simp [anomalyAlerts, anomalyAlertRows, dateFilter, List.filter_cons, h]
  intro a _ _ ha
  subst ha
  exact h

/-- Filtering with the same predicate twice equals filtering once. -/
theorem filter_idem {α : Type} (p : α → Bool) (l : List α) :
    (l.filter p).filter p = l.filter p := by
  induction l with
  | nil => rfl
  | cons a t ih => cases h : p a <;> simp [List.filter_cons, h, ih]

/-- Claim C8: the filter/derive/aggregate pipeline is deterministic and
idempotent: two top-to-bottom renders on an unchanged dataset and unchanged
filter selection produce identical output tables, and re-applying any of the
filter stages (inclusive date range, tab-2 entity filter, tab-1 combined
filter) to its own output leaves the tables unchanged. -/
theorem pipeline_deterministic_idempotent (sel : FacilitySel) (s e : Int)
    (rows : List FacRow) (dcSel : List String) (dcRows : List DcRow) :
    (tab2PipelineTwice sel s e rows).1 = (tab2PipelineTwice sel s e rows).2
    ∧ dateFilter FacRow.time_window s e (dateFilter FacRow.time_window s e rows)
        = dateFilter FacRow.time_window s e rows
    ∧ entityFilterFac sel (entityFilterFac sel rows) = entityFilterFac sel rows
    ∧ dcFilter dcSel s e (dcFilter dcSel s e dcRows) = dcFilter dcSel s e dcRows := by
  refine ⟨rfl, filter_idem _ _, ?_, filter_idem _ _⟩
  cases sel with
  | byDatacenter dc => exact filter_idem _ _
  | byFacility fsel => exact filter_idem _ _

/-- Claim C9: the tab-2 Facility Performance Summary table is computed from
the dataset that has already passed the entity filter (not only the date
filter): two different facility multiselect choices over the same data and
date range yield different summary tables. -/
theorem summary_depends_on_entity_filter :
    facilitySummaryTable (.byFacility ["F01", "F02"]) 0 1 exampleFacRows
      ≠ facilitySummaryTable (.byFacility ["F01"]) 0 1 exampleFacRows
    ∧ facilitySummaryTable (.byFacility ["F01", "F02"]) 0 1 exampleFacRows
        = [⟨"F01", 30, 20, 5, 3/2, some 6⟩, ⟨"F02", 70, 20, 5, 3/2, some 14⟩]
    ∧ facilitySummaryTable (.byFacility ["F01"]) 0 1 exampleFacRows
        = [⟨"F01", 30, 20, 5, 3/2, some 6⟩] := by
  have h1 : facilitySummaryTable (.byFacility ["F01", "F02"]) 0 1 exampleFacRows
      = [⟨"F01", 30, 20, 5, 3/2, some 6⟩, ⟨"F02", 70, 20, 5, 3/2, some 14⟩] := by
    simp +decide [facilitySummaryTable, df_summary, tab2Filtered, entityFilterFac,
      dateFilter, facility_perf, facilityGroup, listSum, listMean, avgPowerPerRack,
      replaceZeroWithNA, List.dedup, List.pwFilter, List.filter, exampleFacRows]
    norm_num
  have h2 : facilitySummaryTable (.byFacility ["F01"]) 0 1 exampleFacRows
      = [⟨"F01", 30, 20, 5, 3/2, some 6⟩] := by
    simp +decide [facilitySummaryTable, df_summary, tab2Filtered, entityFilterFac,
      dateFilter, facility_perf, facilityGroup, listSum, listMean, avgPowerPerRack,
      replaceZeroWithNA, List.dedup, List.pwFilter, List.filter, exampleFacRows]
    norm_num
  refine ⟨?_, h1, h2⟩
  intro h
  rw [h1, h2] at h
  exact absurd (congrArg List.length h) (by decide)

/-- Claim C10: in tab 3 the anomaly alerts table and the per-facility KPI
summary depend only on the date-range selection: any two choices of the
facility multiselect produce identical alerts and KPI outputs, since the
facility filter is applied only after both are computed. -/
theorem alerts_kpi_independent_of_facility_filter (rows : List RackRow) (s e : Int)
    (sel1 sel2 : List String) :
    (tab3Render s e sel1 rows).alertsTable = (tab3Render s e sel2 rows).alertsTable
    ∧ (tab3Render s e sel1 rows).kpiTable = (tab3Render s e sel2 rows).kpiTable :=
  ⟨rfl, rfl⟩

end DCDash
